import Mathlib

/-
Verification of the Endpoint Selection & Payload Assembly component of the
sdx-fabric client (guided L2VPN creation workflow).  The client's selection
state machine is documented in the repository's READMEs; its behaviour is
embedded here as pure Lean functions over an explicit session state, with
external collaborators (Port Directory, Transport) passed in as an
environment and every external call recorded in an effect list.
-/

namespace SdxClient

/-- Modelled from the spec: a row of the Port Directory (the client
implementation itself is not in the repository snapshot; only its README
documentation is).  Per port the directory reports domain, device, port
number and a stable port identifier. -/
structure PortRecord where
  domain : String
  device : String
  portNumber : String
  port_id : String
deriving DecidableEq, Repr

/-- Modelled from the spec: one endpoint descriptor of the L2VPN creation
payload, `{port_id, vlan}`. -/
structure EndpointDescriptor where
  port_id : String
  vlan : String
deriving DecidableEq, Repr

/-- Modelled from the spec: the L2VPN creation payload - `name`,
`notifications` contact and an ordered list of endpoint descriptors. -/
structure L2vpnPayload where
  name : String
  notifications : String
  endpoints : List EndpointDescriptor
deriving DecidableEq, Repr

/-- Modelled from the spec: the stored selection at one position.  Both
fields are optional so that the "entirely unset or fully resolved"
invariant is a real property of the operations, not of the type. -/
structure EndpointSlot where
  port_id : Option String
  vlan : Option String
deriving DecidableEq, Repr

def EndpointSlot.empty : EndpointSlot := ⟨none, none⟩

def EndpointSlot.unset (s : EndpointSlot) : Bool :=
  s.port_id.isNone && s.vlan.isNone

def EndpointSlot.resolved (s : EndpointSlot) : Bool :=
  s.port_id.isSome && s.vlan.isSome

def EndpointSlot.wellFormed (s : EndpointSlot) : Bool :=
  s.unset || s.resolved

/-- Modelled from the spec: endpoint position, first or second. -/
inductive Position
  | first
  | second
deriving DecidableEq, Repr

/-- Modelled from the spec: the Selection Session.  It stores the (at most
two) endpoint selections keyed by position, and the JSON rows cached by the
most recent endpoint-listing call for each position (the listing returns an
HTML table for display while caching the JSON rows internally). -/
structure Session where
  first : EndpointSlot
  second : EndpointSlot
  firstRows : List PortRecord
  secondRows : List PortRecord
deriving DecidableEq, Repr

def Session.empty : Session := ⟨EndpointSlot.empty, EndpointSlot.empty, [], []⟩

def Session.slotAt (s : Session) : Position → EndpointSlot
  | Position.first => s.first
  | Position.second => s.second

def Session.rowsAt (s : Session) : Position → List PortRecord
  | Position.first => s.firstRows
  | Position.second => s.secondRows

def Session.setSlot (s : Session) (p : Position) (slot : EndpointSlot) : Session :=
  match p with
  | Position.first => { s with first := slot }
  | Position.second => { s with second := slot }

def Session.setRows (s : Session) (p : Position) (rows : List PortRecord) : Session :=
  match p with
  | Position.first => { s with firstRows := rows }
  | Position.second => { s with secondRows := rows }

def Session.wellFormed (s : Session) : Bool :=
  s.first.wellFormed && s.second.wellFormed

/-- Modelled from the spec: the opaque success payloads carried in the
Response Envelope's `data` field. -/
inductive RespData
  | ports (rows : List PortRecord)
  | html (text : String)
  | payload (body : L2vpnPayload)
  | created (rep : String)
deriving DecidableEq, Repr

/-- Modelled from the spec: the uniform Response Envelope
`{status_code: integer, data: optional, error: optional}` returned by every
public operation. -/
structure Envelope where
  status_code : Int
  data : Option RespData
  error : Option String
deriving DecidableEq, Repr

/-- Modelled from the spec: the error kinds of the error-handling design. -/
inductive ErrKind
  | InvalidSelection
  | PortNotFound
  | AmbiguousSelection
  | NoVlanAvailable
  | IncompleteSelection
deriving DecidableEq, Repr

def ErrKind.label : ErrKind → String
  | ErrKind.InvalidSelection => "InvalidSelection"
  | ErrKind.PortNotFound => "PortNotFound"
  | ErrKind.AmbiguousSelection => "AmbiguousSelection"
  | ErrKind.NoVlanAvailable => "NoVlanAvailable"
  | ErrKind.IncompleteSelection => "IncompleteSelection"

def ErrKind.status : ErrKind → Int
  | ErrKind.InvalidSelection => 400
  | ErrKind.PortNotFound => 404
  | ErrKind.AmbiguousSelection => 409
  | ErrKind.NoVlanAvailable => 422
  | ErrKind.IncompleteSelection => 400

/-- Error outcome: non-2xx status, `error` populated, `data` absent. -/
def errResp (k : ErrKind) : Envelope := ⟨k.status, none, some k.label⟩

/-- Success outcome: status 200 with an optional payload. -/
def okResp (d : Option RespData) : Envelope := ⟨200, d, none⟩

/-- External calls an operation may issue, recorded for the purity and
no-partial-submission properties. -/
inductive ExtCall
  | portDirQuery
  | deviceInfoQuery (port_id : String)
  | transportCreate (body : L2vpnPayload)
deriving DecidableEq, Repr

/-- Modelled from the spec: the external collaborators.  `directory` is the
Port Directory's row set; `deviceVlans` is its device-info query (available
VLAN set per port); `vlansInUse` the consumed VLANs per port; `transport`
the authenticated HTTP create operation, returning its own envelope. -/
structure Env where
  directory : List PortRecord
  deviceVlans : String → List String
  vlansInUse : String → List String
  transport : L2vpnPayload → Envelope

/-- Result of one public operation: the new session, the Response Envelope
and the list of external calls issued. -/
structure OpResult where
  session : Session
  resp : Envelope
  calls : List ExtCall

/-- ASCII lower-casing of one character. -/
def lowerChar (c : Char) : Char :=
  if 65 ≤ c.toNat ∧ c.toNat ≤ 90 then Char.ofNat (c.toNat + 32) else c

/-- ASCII lower-casing of a character list. -/
def lowerChars (cs : List Char) : List Char := cs.map lowerChar

/-- Case-insensitive substring test used by the search and `min_filter`
matching. -/
def strContains (pat s : String) : Bool :=
  ((lowerChars s.toList).tails).any (fun t => (lowerChars pat.toList).isPrefixOf t)

/-- Modelled from the spec: the substring filter of `list_available_ports`
and `min_filter`, applied case-insensitively to the port, device and domain
name fields (the port identifier included, as in the README examples where
`min_filter="SW17:7"` matches the port id `urn:...:MIA-MI1-SW17:7`). -/
def matchesFilter (f : String) (r : PortRecord) : Bool :=
  strContains f r.domain ||
  strContains f r.device ||
  strContains f r.portNumber ||
  strContains f r.port_id

def applySearch (rows : List PortRecord) (search : Option String) : List PortRecord :=
  match search with
  | none => rows
  | some f => rows.filter (matchesFilter f)

def applyLimit (rows : List PortRecord) (limit : Option Nat) : List PortRecord :=
  match limit with
  | none => rows
  | some n => rows.take n

/-- HTML rendering of a listing, for display. -/
def renderHtmlTable (rows : List PortRecord) : String :=
  "<table>" ++ String.join (rows.map (fun r =>
    "<tr><td>" ++ r.domain ++ "</td><td>" ++ r.device ++ "</td><td>" ++
    r.portNumber ++ "</td><td>" ++ r.port_id ++ "</td></tr>")) ++ "</table>"

/-- HTML rendering for the second position: each row additionally annotated
with the VLANs currently in use at that port. -/
def renderHtmlAnnotated (env : Env) (rows : List PortRecord) : String :=
  "<table>" ++ String.join (rows.map (fun r =>
    "<tr><td>" ++ r.domain ++ "</td><td>" ++ r.device ++ "</td><td>" ++
    r.portNumber ++ "</td><td>" ++ r.port_id ++ "</td><td>" ++
    String.intercalate "," (env.vlansInUse r.port_id) ++ "</td></tr>")) ++ "</table>"

/-- Left fold of the natural-number minimum, used for VLAN selection. -/
def foldMinNat (x : Nat) : List Nat → Nat
  | [] => x
  | y :: ys => foldMinNat (min x y) ys

/-- Decimal digit value of a character, if it is a digit. -/
def digitVal (c : Char) : Option Nat :=
  if 48 ≤ c.toNat ∧ c.toNat ≤ 57 then some (c.toNat - 48) else none

/-- Accumulating decimal parse of a character list; `none` on any
non-digit. -/
def parseNatAux (acc : Nat) : List Char → Option Nat
  | [] => some acc
  | c :: cs =>
    match digitVal c with
    | some d => parseNatAux (acc * 10 + d) cs
    | none => none

/-- Numeric (integer) reading of a VLAN string; `none` for `untagged` or
any other non-numeric value. -/
def vlanNat (s : String) : Option Nat :=
  match s.toList with
  | [] => none
  | c :: cs => parseNatAux 0 (c :: cs)

/-- Modelled from the spec: VLAN resolution from the device-info VLAN set.
If `prefer_untagged` and `untagged` is among the available VLANs, select it;
otherwise select the lowest numeric VLAN, comparing VLAN values as integers;
`none` (reported as `NoVlanAvailable`) when no usable VLAN exists. -/
def selectVlan (vlans : List String) (preferUntagged : Bool) : Option String :=
  if preferUntagged && vlans.contains "untagged" then some "untagged"
  else
    match vlans.filterMap vlanNat with
    | [] => if vlans.contains "untagged" then some "untagged" else none
    | x :: xs => some (toString (foldMinNat x xs))

/-- Modelled from the spec: `begin_selection` clears any prior state and
returns the empty 200 envelope, with no network call. -/
def begin_selection (_s : Session) : OpResult :=
  ⟨Session.empty, okResp none, []⟩

/-- Modelled from the spec: `list_available_ports` delegates to the Port
Directory, applying the case-insensitive search and the row limit. -/
def list_available_ports (env : Env) (s : Session) (search : Option String)
    (limit : Option Nat) : OpResult :=
  let rows := applyLimit (applySearch env.directory search) limit
  ⟨s, okResp (some (RespData.ports rows)), [ExtCall.portDirQuery]⟩

/-- Modelled from the spec: `list_endpoints_for_position` returns an HTML
table for display (annotated with in-use VLANs when the position is second)
while caching the JSON rows in the session for later `min_filter` matching. -/
def list_endpoints_for_position (env : Env) (s : Session) (pos : Position)
    (search : Option String) (limit : Option Nat) : OpResult :=
  let rows := applyLimit (applySearch env.directory search) limit
  let text :=
    match pos with
    | Position.first => renderHtmlTable rows
    | Position.second => renderHtmlAnnotated env rows
  ⟨s.setRows pos rows, okResp (some (RespData.html text)), [ExtCall.portDirQuery]⟩

/-- VLAN resolution step of `set_endpoint`: query device-info for the
resolved port, select the VLAN, and store the fully resolved selection at
the position; on `NoVlanAvailable` the session is left unchanged. -/
def resolveVlanAndStore (env : Env) (s : Session) (pos : Position)
    (pid : String) (preferUntagged : Bool) (priorCalls : List ExtCall) : OpResult :=
  let calls := priorCalls ++ [ExtCall.deviceInfoQuery pid]
  match selectVlan (env.deviceVlans pid) preferUntagged with
  | some v => ⟨s.setSlot pos ⟨some pid, some v⟩, okResp none, calls⟩
  | none => ⟨s, errResp ErrKind.NoVlanAvailable, calls⟩

/-- Modelled from the spec: `set_endpoint`.  Exactly one of `port_id` or
`min_filter` must be supplied (`InvalidSelection` otherwise).  A `port_id`
must resolve to exactly one Port Directory entry (`PortNotFound` otherwise).
A `min_filter` is matched against the position's cached candidate rows:
zero matches is `PortNotFound`, two or more is `AmbiguousSelection`.  The
resolved port then goes through VLAN resolution and the selection at the
position is overwritten. -/
def set_endpoint (env : Env) (s : Session) (pos : Position)
    (port_id : Option String) (min_filter : Option String)
    (preferUntagged : Bool) : OpResult :=
  match port_id, min_filter with
  | some _, some _ => ⟨s, errResp ErrKind.InvalidSelection, []⟩
  | none, none => ⟨s, errResp ErrKind.InvalidSelection, []⟩
  | some pid, none =>
    match env.directory.filter (fun r => r.port_id == pid) with
    | [r] => resolveVlanAndStore env s pos r.port_id preferUntagged [ExtCall.portDirQuery]
    | _ => ⟨s, errResp ErrKind.PortNotFound, [ExtCall.portDirQuery]⟩
  | none, some f =>
    match (s.rowsAt pos).filter (matchesFilter f) with
    | [] => ⟨s, errResp ErrKind.PortNotFound, []⟩
    | [r] => resolveVlanAndStore env s pos r.port_id preferUntagged []
    | _ => ⟨s, errResp ErrKind.AmbiguousSelection, []⟩

/-- Modelled from the spec: the payload assembled from the current session,
available exactly when both positions are fully resolved. -/
def Session.assembledPayload (s : Session) (name notifications : String) :
    Option L2vpnPayload :=
  match s.first.port_id, s.first.vlan, s.second.port_id, s.second.vlan with
  | some p1, some v1, some p2, some v2 =>
    some ⟨name, notifications, [⟨p1, v1⟩, ⟨p2, v2⟩]⟩
  | _, _, _, _ => none

/-- Modelled from the spec: `preview_payload` returns the exact structured
body that would be submitted, without any network call; `IncompleteSelection`
unless both positions are resolved. -/
def preview_payload (s : Session) (name notifications : String) : OpResult :=
  match s.assembledPayload name notifications with
  | some body => ⟨s, okResp (some (RespData.payload body)), []⟩
  | none => ⟨s, errResp ErrKind.IncompleteSelection, []⟩

/-- Modelled from the spec: `create_from_selection` submits the assembled
payload via the Transport, propagating the Transport's envelope untouched,
with no local retry and without clearing the session; `IncompleteSelection`
(and no Transport call) unless both positions are resolved. -/
def create_from_selection (env : Env) (s : Session) (name notifications : String) :
    OpResult :=
  match s.assembledPayload name notifications with
  | some body => ⟨s, env.transport body, [ExtCall.transportCreate body]⟩
  | none => ⟨s, errResp ErrKind.IncompleteSelection, []⟩

/-- Byte-level rendering of an endpoint descriptor, for the byte-identical
preview property. -/
def EndpointDescriptor.render (e : EndpointDescriptor) : String :=
  "\x7b\"port_id\": \"" ++ e.port_id ++ "\", \"vlan\": \"" ++ e.vlan ++ "\"\x7d"

/-- Byte-level rendering of the L2VPN creation payload. -/
def L2vpnPayload.render (p : L2vpnPayload) : String :=
  "\x7b\"name\": \"" ++ p.name ++ "\", \"notifications\": [\"" ++ p.notifications ++
  "\"], \"endpoints\": [" ++
  String.intercalate ", " (p.endpoints.map EndpointDescriptor.render) ++ "]\x7d"

/-- Byte-level rendering of an envelope's data field. -/
def Envelope.renderData (e : Envelope) : String :=
  match e.data with
  | none => ""
  | some (RespData.ports rows) => renderHtmlTable rows
  | some (RespData.html t) => t
  | some (RespData.payload body) => body.render
  | some (RespData.created rep) => rep

/-- The Response Envelope invariant: on a non-2xx status exactly one of
`data` and `error` is populated (so both can be absent only on a 2xx,
no-content outcome). -/
def Envelope.wellFormed (e : Envelope) : Bool :=
  if 200 ≤ e.status_code ∧ e.status_code < 300 then true
  else e.data.isSome != e.error.isSome

/-! ### Helper lemmas -/

lemma Session.slotAt_setSlot (s : Session) (pos : Position) (slot : EndpointSlot) :
    (s.setSlot pos slot).slotAt pos = slot := by
  cases pos <;> rfl

lemma Session.rowsAt_setRows (s : Session) (pos : Position) (rows : List PortRecord) :
    (s.setRows pos rows).rowsAt pos = rows := by
  cases pos <;> rfl

lemma Session.wellFormed_setRows (s : Session) (pos : Position) (rows : List PortRecord) :
    (s.setRows pos rows).wellFormed = s.wellFormed := by
  cases pos <;> rfl

lemma foldMinNat_mem (x : Nat) (ys : List Nat) : foldMinNat x ys ∈ x :: ys := by
  induction ys generalizing x with
  | nil => simp [foldMinNat]
  | cons y ys ih =>
    have h := ih (min x y)
    rw [foldMinNat]
    rcases List.mem_cons.mp h with h1 | h1
    · rw [h1]
      rcases le_total x y with h2 | h2
      · rw [min_eq_left h2]
        simp
      · rw [min_eq_right h2]
        simp
    · simp [List.mem_cons, h1]

lemma foldMinNat_le (x : Nat) (ys : List Nat) :
    ∀ z ∈ x :: ys, foldMinNat x ys ≤ z := by
  induction ys generalizing x with
  | nil =>
    intro z hz
    rcases List.mem_cons.mp hz with h1 | h1
    · subst h1
      exact Nat.le_refl _
    · exact absurd h1 (List.not_mem_nil z)
  | cons y ys ih =>
    intro z hz
    rw [foldMinNat]
    have hmin := ih (min x y)
    rcases List.mem_cons.mp hz with h1 | hz'
    · rw [h1]
      exact le_trans (hmin _ (List.mem_cons_self _ _)) (min_le_left x y)
    · rcases List.mem_cons.mp hz' with h1 | hz''
      · rw [h1]
        exact le_trans (hmin _ (List.mem_cons_self _ _)) (min_le_right x y)
      · exact hmin z (List.mem_cons_of_mem _ hz'')

lemma assembledPayload_eq_none (s : Session) (nm contact : String)
    (h : (s.first.resolved && s.second.resolved) = false) :
    s.assembledPayload nm contact = none := by
  rcases s with ⟨⟨p1, v1⟩, ⟨p2, v2⟩, rows1, rows2⟩
  simp only [EndpointSlot.resolved] at h
  cases p1 <;> cases v1 <;> cases p2 <;> cases v2 <;>
    simp_all [Session.assembledPayload]

lemma resolveVlanAndStore_resp (env : Env) (s s' : Session) (pos pos' : Position)
    (pid : String) (pu : Bool) (pc pc' : List ExtCall) :
    (resolveVlanAndStore env s pos pid pu pc).resp =
      (resolveVlanAndStore env s' pos' pid pu pc').resp := by
  unfold resolveVlanAndStore
  cases selectVlan (env.deviceVlans pid) pu <;> rfl

lemma resolveVlanAndStore_session (env : Env) (s : Session) (pos : Position)
    (pid : String) (pu : Bool) (pc pc' : List ExtCall) :
    (resolveVlanAndStore env s pos pid pu pc).session =
      (resolveVlanAndStore env s pos pid pu pc').session := by
  unfold resolveVlanAndStore
  cases selectVlan (env.deviceVlans pid) pu <;> rfl

lemma Session.setSlot_first_second (s : Session) (slot : EndpointSlot) :
    (s.setSlot Position.first slot).second = s.second := rfl

lemma Session.setSlot_second_first (s : Session) (slot : EndpointSlot) :
    (s.setSlot Position.second slot).first = s.first := rfl

/-- Every `set_endpoint` outcome either leaves the session unchanged or
overwrites exactly the slot at the requested position with a fully resolved
selection. -/
lemma set_endpoint_session_shape (env : Env) (s : Session) (pos : Position)
    (pid mf : Option String) (pu : Bool) :
    (set_endpoint env s pos pid mf pu).session = s ∨
    ∃ p v, (set_endpoint env s pos pid mf pu).session = s.setSlot pos ⟨some p, some v⟩ := by
  cases pid with
  | none =>
    cases mf with
    | none => exact Or.inl rfl
    | some f =>
      simp only [set_endpoint]
      split
      · exact Or.inl rfl
      · unfold resolveVlanAndStore
        split
        · exact Or.inr ⟨_, _, rfl⟩
        · exact Or.inl rfl
      · exact Or.inl rfl
  | some pidv =>
    cases mf with
    | none =>
      simp only [set_endpoint]
      split
      · unfold resolveVlanAndStore
        split
        · exact Or.inr ⟨_, _, rfl⟩
        · exact Or.inl rfl
      · exact Or.inl rfl
    | some f => exact Or.inl rfl

lemma preview_session_unchanged (s : Session) (nm contact : String) :
    (preview_payload s nm contact).session = s := by
  cases h : s.assembledPayload nm contact <;> simp [preview_payload, h]

lemma create_session_unchanged (env : Env) (s : Session) (nm contact : String) :
    (create_from_selection env s nm contact).session = s := by
  cases h : s.assembledPayload nm contact <;> simp [create_from_selection, h]

lemma Session.wellFormed_setSlot (s : Session) (pos : Position) (slot : EndpointSlot)
    (hs : slot.wellFormed = true) (h : s.wellFormed = true) :
    (s.setSlot pos slot).wellFormed = true := by
  cases pos <;> simp_all [Session.wellFormed, Session.setSlot]

lemma errResp_wellFormed (k : ErrKind) : (errResp k).wellFormed = true := by
  cases k <;> decide

lemma okResp_wellFormed (d : Option RespData) : (okResp d).wellFormed = true := by
  simp [okResp, Envelope.wellFormed]

lemma selectVlan_nil (pu : Bool) : selectVlan [] pu = none := by
  cases pu <;> rfl

lemma selectVlan_untagged (vl : List String) (pu : Bool)
    (h : (pu && vl.contains "untagged") = true) :
    selectVlan vl pu = some "untagged" := by
  simp only [selectVlan, h]
  rfl

lemma selectVlan_min (vl : List String) (pu : Bool) (n : Nat) (ns : List Nat)
    (h1 : (pu && vl.contains "untagged") = false)
    (hn : vl.filterMap vlanNat = n :: ns) :
    selectVlan vl pu = some (toString (foldMinNat n ns)) := by
  simp only [selectVlan, h1, hn]
  rfl

lemma resolveVlanAndStore_resp_cases (env : Env) (s : Session) (pos : Position)
    (pid : String) (pu : Bool) (pc : List ExtCall) :
    (resolveVlanAndStore env s pos pid pu pc).resp = okResp none ∨
    (resolveVlanAndStore env s pos pid pu pc).resp = errResp ErrKind.NoVlanAvailable := by
  unfold resolveVlanAndStore
  cases selectVlan (env.deviceVlans pid) pu <;> simp

/-- Case analysis of `set_endpoint` called with a `port_id`. -/
lemma set_endpoint_by_port (env : Env) (s : Session) (pos : Position)
    (p : String) (pu : Bool) :
    (∃ r, env.directory.filter (fun x => x.port_id == p) = [r] ∧
       set_endpoint env s pos (some p) none pu
         = resolveVlanAndStore env s pos r.port_id pu [ExtCall.portDirQuery]) ∨
    ((env.directory.filter (fun x => x.port_id == p)).length ≠ 1 ∧
       set_endpoint env s pos (some p) none pu
         = ⟨s, errResp ErrKind.PortNotFound, [ExtCall.portDirQuery]⟩) := by
  simp only [set_endpoint]
  split
  · rename_i r heq
    exact Or.inl ⟨r, heq, rfl⟩
  · rename_i hne
    refine Or.inr ⟨?_, rfl⟩
    intro hlen
    obtain ⟨a, ha⟩ := List.length_eq_one.mp hlen
    exact hne a ha

/-- Case analysis of `set_endpoint` called with a `min_filter`. -/
lemma set_endpoint_by_filter (env : Env) (s : Session) (pos : Position)
    (f : String) (pu : Bool) :
    ((s.rowsAt pos).filter (matchesFilter f) = [] ∧
       set_endpoint env s pos none (some f) pu
         = ⟨s, errResp ErrKind.PortNotFound, []⟩) ∨
    (∃ r, (s.rowsAt pos).filter (matchesFilter f) = [r] ∧
       set_endpoint env s pos none (some f) pu
         = resolveVlanAndStore env s pos r.port_id pu []) ∨
    (2 ≤ ((s.rowsAt pos).filter (matchesFilter f)).length ∧
       set_endpoint env s pos none (some f) pu
         = ⟨s, errResp ErrKind.AmbiguousSelection, []⟩) := by
  simp only [set_endpoint]
  split
  · rename_i heq
    exact Or.inl ⟨heq, rfl⟩
  · rename_i r heq
    exact Or.inr (Or.inl ⟨r, heq, rfl⟩)
  · rename_i hne0 hne1
    refine Or.inr (Or.inr ⟨?_, rfl⟩)
    rcases hlist : (s.rowsAt pos).filter (matchesFilter f) with _ | ⟨a, _ | ⟨b, l⟩⟩
    · exact absurd hlist hne0
    · exact absurd hlist (hne1 a)
    · simp [hlist]

/-! ### Concrete data for the witness instances -/

/-- A concrete Port Directory row from the README's example flow. -/
def portMia7 : PortRecord :=
  ⟨"amlight.net", "MIA-MI1-SW17", "7", "urn:sdx:port:amlight.net:MIA-MI1-SW17:7"⟩

/-- A second concrete Port Directory row from the README's example flow. -/
def portMia27 : PortRecord :=
  ⟨"amlight.net", "MIA-MI1-SW17", "27", "urn:sdx:port:amlight.net:MIA-MI1-SW17:27"⟩

/-- A concrete Port Directory and collaborator environment, taken from the
README's example flow. -/
def envDemo : Env :=
  { directory := [portMia7, portMia27],
    deviceVlans := fun p =>
      if p = "urn:sdx:port:amlight.net:MIA-MI1-SW17:7" then ["10", "9"]
      else ["untagged", "300"],
    vlansInUse := fun _ => [],
    transport := fun body => ⟨201, some (RespData.created body.name), none⟩ }

/-- A fresh session whose first-position candidate rows have been cached by
a listing call. -/
def sessionCached : Session :=
  ⟨EndpointSlot.empty, EndpointSlot.empty, [portMia7, portMia27], []⟩

/-- The same cached candidate rows with different stored selections, for
the cache-dependence witness. -/
def sessionCachedOther : Session :=
  ⟨⟨some "urn:other", some "4015"⟩, EndpointSlot.empty, [portMia7, portMia27], []⟩

/-- A fully resolved session for the witness instances. -/
def sessionResolved : Session :=
  ⟨⟨some "urn:sdx:port:amlight.net:MIA-MI1-SW17:7", some "9"⟩,
   ⟨some "urn:sdx:port:amlight.net:MIA-MI1-SW17:27", some "untagged"⟩, [], []⟩

/-- The payload assembled from `sessionResolved`. -/
def payloadDemo : L2vpnPayload :=
  ⟨"test", "a@b.edu",
   [⟨"urn:sdx:port:amlight.net:MIA-MI1-SW17:7", "9"⟩,
    ⟨"urn:sdx:port:amlight.net:MIA-MI1-SW17:27", "untagged"⟩]⟩

/-! ### Claims -/

/-- C1: whenever `set_endpoint` resolves a port (by `port_id` or by a
uniquely matching `min_filter`), the stored VLAN is determined from the
device-info query for that port - `untagged` when `prefer_untagged` holds
and `untagged` is available, otherwise the lowest numeric VLAN compared as
integers, and the call fails with `NoVlanAvailable` when the reported VLAN
set is empty. -/
theorem set_endpoint_vlan_resolution (env : Env) (s : Session) (pos : Position)
    (pid mf : Option String) (pu : Bool) (r : PortRecord)
    (hres : (∃ p, pid = some p ∧ mf = none ∧
               env.directory.filter (fun x => x.port_id == p) = [r]) ∨
            (∃ f, pid = none ∧ mf = some f ∧
               (s.rowsAt pos).filter (matchesFilter f) = [r])) :
    (env.deviceVlans r.port_id = [] →
      (set_endpoint env s pos pid mf pu).resp = errResp ErrKind.NoVlanAvailable ∧
      (set_endpoint env s pos pid mf pu).session = s) ∧
    ((pu && (env.deviceVlans r.port_id).contains "untagged") = true →
      ((set_endpoint env s pos pid mf pu).session).slotAt pos
        = ⟨some r.port_id, some "untagged"⟩) ∧
    ((pu && (env.deviceVlans r.port_id).contains "untagged") = false →
      ∀ n ns, (env.deviceVlans r.port_id).filterMap vlanNat = n :: ns →
        ∃ m, ((set_endpoint env s pos pid mf pu).session).slotAt pos
            = ⟨some r.port_id, some (toString m)⟩ ∧
          m ∈ (env.deviceVlans r.port_id).filterMap vlanNat ∧
          ∀ k ∈ (env.deviceVlans r.port_id).filterMap vlanNat, m ≤ k) := by
  have hred : ∃ pc, set_endpoint env s pos pid mf pu
      = resolveVlanAndStore env s pos r.port_id pu pc := by
    rcases hres with ⟨p, hp, hm, hf⟩ | ⟨f, hp, hm, hf⟩
    · subst hp
      subst hm
      refine ⟨[ExtCall.portDirQuery], ?_⟩
      simp only [set_endpoint, hf]
    · subst hp
      subst hm
      refine ⟨[], ?_⟩
      simp only [set_endpoint, hf]
  obtain ⟨pc, hred⟩ := hred
  rw [hred]
  refine ⟨?_, ?_, ?_⟩
  · intro h0
    have hsel : selectVlan (env.deviceVlans r.port_id) pu = none := by
      rw [h0]
      exact selectVlan_nil pu
    unfold resolveVlanAndStore
    rw [hsel]
    exact ⟨rfl, rfl⟩
  · intro h1
    have hsel := selectVlan_untagged (env.deviceVlans r.port_id) pu h1
    unfold resolveVlanAndStore
    rw [hsel]
    exact Session.slotAt_setSlot s pos _
  · intro h1 n ns hn
    have hsel := selectVlan_min (env.deviceVlans r.port_id) pu n ns h1 hn
    refine ⟨foldMinNat n ns, ?_, ?_, ?_⟩
    · unfold resolveVlanAndStore
      rw [hsel]
      exact Session.slotAt_setSlot s pos _
    · rw [hn]
      exact foldMinNat_mem n ns
    · intro k hk
      rw [hn] at hk
      exact foldMinNat_le n ns k hk

/-- Witness for C1: with available VLANs `["10", "9"]` the integer minimum
`9` is stored, not the string minimum `10`. -/
theorem set_endpoint_vlan_resolution_witness :
    ((set_endpoint envDemo Session.empty Position.first
        (some "urn:sdx:port:amlight.net:MIA-MI1-SW17:7") none false).session).slotAt
          Position.first
      = ⟨some "urn:sdx:port:amlight.net:MIA-MI1-SW17:7", some "9"⟩ := by
  have h := set_endpoint_vlan_resolution envDemo Session.empty Position.first
      (some "urn:sdx:port:amlight.net:MIA-MI1-SW17:7") none false
      ⟨"amlight.net", "MIA-MI1-SW17", "7", "urn:sdx:port:amlight.net:MIA-MI1-SW17:7"⟩
      (Or.inl ⟨"urn:sdx:port:amlight.net:MIA-MI1-SW17:7", rfl, rfl, by decide⟩)
  obtain ⟨m, hm, hmem, hle⟩ := h.2.2 (by decide) 10 [9] (by decide)
  have h9 : m ≤ 9 := hle 9 (by decide)
  have hv : (envDemo.deviceVlans "urn:sdx:port:amlight.net:MIA-MI1-SW17:7").filterMap
      vlanNat = [10, 9] := by decide
  rw [hv] at hmem
  rcases List.mem_cons.mp hmem with h1 | h1
  · omega
  · rcases List.mem_cons.mp h1 with h2 | h2
    · rw [h2] at hm
      rw [hm]
      rfl
    · exact absurd h2 (List.not_mem_nil m)

/-- C2: `set_endpoint` fails with `InvalidSelection` exactly when both or
neither of `port_id` and `min_filter` are supplied; with `port_id` alone it
fails with `PortNotFound` unless the id resolves to exactly one Port
Directory entry; with `min_filter` alone it fails with `PortNotFound` on
zero matches, with `AmbiguousSelection` on two or more, and succeeds only
on a unique match. -/
theorem set_endpoint_error_discipline (env : Env) (s : Session) (pos : Position)
    (pid mf : Option String) (pu : Bool) :
    ((set_endpoint env s pos pid mf pu).resp = errResp ErrKind.InvalidSelection ↔
      ((pid.isSome = true ∧ mf.isSome = true) ∨ (pid = none ∧ mf = none))) ∧
    (∀ p, pid = some p → mf = none →
      (((env.directory.filter (fun x => x.port_id == p)).length = 1 →
         (set_endpoint env s pos pid mf pu).resp ≠ errResp ErrKind.PortNotFound) ∧
       ((env.directory.filter (fun x => x.port_id == p)).length ≠ 1 →
         (set_endpoint env s pos pid mf pu).resp = errResp ErrKind.PortNotFound))) ∧
    (∀ f, pid = none → mf = some f →
      (((s.rowsAt pos).filter (matchesFilter f) = [] →
         (set_endpoint env s pos pid mf pu).resp = errResp ErrKind.PortNotFound) ∧
       (2 ≤ ((s.rowsAt pos).filter (matchesFilter f)).length →
         (set_endpoint env s pos pid mf pu).resp = errResp ErrKind.AmbiguousSelection) ∧
       ((set_endpoint env s pos pid mf pu).resp.error = none →
         ((s.rowsAt pos).filter (matchesFilter f)).length = 1))) := by
  refine ⟨?_, ?_, ?_⟩
  · cases pid with
    | none =>
      cases mf with
      | none => simp [set_endpoint]
      | some f =>
        rcases set_endpoint_by_filter env s pos f pu with ⟨h1, h2⟩ | ⟨r, h1, h2⟩ | ⟨h1, h2⟩ <;>
          rw [h2]
        · simp [errResp, ErrKind.label, ErrKind.status]
        · rcases resolveVlanAndStore_resp_cases env s pos r.port_id pu [] with hc | hc <;>
            rw [hc] <;> simp [errResp, okResp, ErrKind.label, ErrKind.status]
        · simp [errResp, ErrKind.label, ErrKind.status]
    | some p =>
      cases mf with
      | none =>
        rcases set_endpoint_by_port env s pos p pu with ⟨r, h1, h2⟩ | ⟨h1, h2⟩ <;> rw [h2]
        · rcases resolveVlanAndStore_resp_cases env s pos r.port_id pu
              [ExtCall.portDirQuery] with hc | hc <;>
            rw [hc] <;> simp [errResp, okResp, ErrKind.label, ErrKind.status]
        · simp [errResp, ErrKind.label, ErrKind.status]
      | some f => simp [set_endpoint]
  · intro p hp hm
    subst hp
    subst hm
    constructor
    · intro hlen hcontra
      rcases set_endpoint_by_port env s pos p pu with ⟨r, h1, h2⟩ | ⟨h1, h2⟩
      · rw [h2] at hcontra
        rcases resolveVlanAndStore_resp_cases env s pos r.port_id pu
            [ExtCall.portDirQuery] with hc | hc <;> rw [hc] at hcontra
        · exact absurd hcontra (by decide)
        · exact absurd hcontra (by decide)
      · exact h1 hlen
    · intro hlen
      rcases set_endpoint_by_port env s pos p pu with ⟨r, h1, h2⟩ | ⟨h1, h2⟩
      · refine absurd ?_ hlen
        rw [h1]
        rfl
      · rw [h2]
  · intro f hp hm
    subst hp
    subst hm
    refine ⟨?_, ?_, ?_⟩
    · intro hemp
      rcases set_endpoint_by_filter env s pos f pu with ⟨h1, h2⟩ | ⟨r, h1, h2⟩ | ⟨h1, h2⟩
      · rw [h2]
      · rw [hemp] at h1
        cases h1
      · rw [hemp] at h1
        simp at h1
    · intro h2le
      rcases set_endpoint_by_filter env s pos f pu with ⟨h1, h2⟩ | ⟨r, h1, h2⟩ | ⟨h1, h2⟩
      · rw [h1] at h2le
        simp at h2le
      · rw [h1] at h2le
        simp at h2le
      · rw [h2]
    · intro hsucc
      rcases set_endpoint_by_filter env s pos f pu with ⟨h1, h2⟩ | ⟨r, h1, h2⟩ | ⟨h1, h2⟩
      · rw [h2] at hsucc
        simp [errResp, ErrKind.label] at hsucc
      · rw [h1]
        rfl
      · rw [h2] at hsucc
        simp [errResp, ErrKind.label] at hsucc

/-- Witness for C2: supplying both selectors is rejected with
`InvalidSelection`, and a filter matching nothing is rejected with
`PortNotFound`. -/
theorem set_endpoint_error_discipline_witness :
    (set_endpoint envDemo Session.empty Position.first (some "x") (some "y") false).resp
      = errResp ErrKind.InvalidSelection ∧
    (set_endpoint envDemo Session.empty Position.first none (some "nomatch") false).resp
      = errResp ErrKind.PortNotFound := by
  have h1 := set_endpoint_error_discipline envDemo Session.empty Position.first
      (some "x") (some "y") false
  have h2 := set_endpoint_error_discipline envDemo Session.empty Position.first
      none (some "nomatch") false
  exact ⟨h1.1.mpr (Or.inl ⟨rfl, rfl⟩),
         ((h2.2.2 "nomatch" rfl rfl).1 (by decide))⟩

/-- C3: whenever the two positions are not both fully resolved,
`preview_payload` and `create_from_selection` fail with
`IncompleteSelection`, the failing `create_from_selection` issues no
Transport call, and `begin_selection` immediately followed by
`preview_payload` always fails with `IncompleteSelection`. -/
theorem incomplete_selection_rejected (env : Env) (s : Session) (nm contact : String)
    (h : (s.first.resolved && s.second.resolved) = false) :
    (preview_payload s nm contact).resp = errResp ErrKind.IncompleteSelection ∧
    (preview_payload s nm contact).session = s ∧
    (create_from_selection env s nm contact).resp = errResp ErrKind.IncompleteSelection ∧
    (create_from_selection env s nm contact).session = s ∧
    (create_from_selection env s nm contact).calls = [] ∧
    ∀ s0 : Session, (preview_payload (begin_selection s0).session nm contact).resp
      = errResp ErrKind.IncompleteSelection := by
  have hnone := assembledPayload_eq_none s nm contact h
  refine ⟨?_, ?_, ?_, ?_, ?_, ?_⟩
  · simp [preview_payload, hnone]
  · simp [preview_payload, hnone]
  · simp [create_from_selection, hnone]
  · simp [create_from_selection, hnone]
  · simp [create_from_selection, hnone]
  · intro s0
    rfl

/-- Witness for C3: the empty session is rejected concretely. -/
theorem incomplete_selection_rejected_witness :
    ((Session.empty.first.resolved && Session.empty.second.resolved) = false) ∧
    (preview_payload Session.empty "test" "a@b.edu").resp
      = errResp ErrKind.IncompleteSelection ∧
    (create_from_selection envDemo Session.empty "test" "a@b.edu").calls = [] := by
  have h := incomplete_selection_rejected envDemo Session.empty "test" "a@b.edu" (by decide)
  exact ⟨by decide, h.1, h.2.2.2.2.1⟩

/-- C4: `create_from_selection` has no partial-success outcome - the session
is left unchanged in every case, the Transport's envelope is propagated
verbatim with exactly one Transport call (no local retry), the stored
selections remain readable by `preview_payload` afterwards, and only an
explicit `begin_selection` resets the session. -/
theorem create_no_partial_success (env : Env) (s : Session) (nm contact : String) :
    (create_from_selection env s nm contact).session = s ∧
    (∀ body, s.assembledPayload nm contact = some body →
      (create_from_selection env s nm contact).resp = env.transport body ∧
      (create_from_selection env s nm contact).calls = [ExtCall.transportCreate body] ∧
      (preview_payload (create_from_selection env s nm contact).session nm contact).resp
        = okResp (some (RespData.payload body))) ∧
    (begin_selection (create_from_selection env s nm contact).session).session
      = Session.empty := by
  cases h : s.assembledPayload nm contact with
  | none =>
    refine ⟨?_, ?_, ?_⟩
    · simp [create_from_selection, h]
    · intro body hb
      cases hb
    · simp [create_from_selection, h, begin_selection]
  | some body0 =>
    refine ⟨?_, ?_, ?_⟩
    · simp [create_from_selection, h]
    · intro body hb
      obtain rfl : body0 = body := Option.some.inj hb
      refine ⟨?_, ?_, ?_⟩ <;> simp [create_from_selection, preview_payload, h]
    · simp [create_from_selection, begin_selection]

/-- Witness for C4: a fully resolved session submitted through the demo
environment. -/
theorem create_no_partial_success_witness :
    (create_from_selection envDemo sessionResolved "test" "a@b.edu").session
      = sessionResolved ∧
    (create_from_selection envDemo sessionResolved "test" "a@b.edu").resp
      = envDemo.transport payloadDemo ∧
    (create_from_selection envDemo sessionResolved "test" "a@b.edu").calls
      = [ExtCall.transportCreate payloadDemo] := by
  have h := create_no_partial_success envDemo sessionResolved "test" "a@b.edu"
  have h2 := h.2.1 payloadDemo (by decide)
  exact ⟨h.1, h2.1, h2.2.1⟩

/-- C6: `set_endpoint` on one position never mutates the stored value at the
other position. -/
theorem set_endpoint_frame (env : Env) (s : Session) (pid mf : Option String)
    (pu : Bool) :
    ((set_endpoint env s Position.first pid mf pu).session).second = s.second ∧
    ((set_endpoint env s Position.second pid mf pu).session).first = s.first := by
  constructor
  · rcases set_endpoint_session_shape env s Position.first pid mf pu with h | ⟨p, v, h⟩
    · rw [h]
    · rw [h, Session.setSlot_first_second]
  · rcases set_endpoint_session_shape env s Position.second pid mf pu with h | ⟨p, v, h⟩
    · rw [h]
    · rw [h, Session.setSlot_second_first]

/-- C7: `preview_payload` is pure and deterministic - it leaves the session
unchanged, issues no external call, and repeating it with the same
arguments returns the identical result, byte-identically rendered. -/
theorem preview_pure (s : Session) (nm contact : String) :
    (preview_payload s nm contact).session = s ∧
    (preview_payload s nm contact).calls = [] ∧
    preview_payload ((preview_payload s nm contact).session) nm contact
      = preview_payload s nm contact ∧
    ((preview_payload ((preview_payload s nm contact).session) nm contact).resp).renderData
      = ((preview_payload s nm contact).resp).renderData := by
  have hsess : (preview_payload s nm contact).session = s := by
    cases h : s.assembledPayload nm contact <;> simp [preview_payload, h]
  have hcalls : (preview_payload s nm contact).calls = [] := by
    cases h : s.assembledPayload nm contact <;> simp [preview_payload, h]
  refine ⟨hsess, hcalls, ?_, ?_⟩
  · rw [hsess]
  · rw [hsess]

/-- C5: when a filter matches exactly one candidate port whose identifier
resolves uniquely in the Port Directory, `set_endpoint` by that filter and
`set_endpoint` by the matched port's id leave the session in the same state
and return the same envelope. -/
theorem filter_port_id_equivalence (env : Env) (s : Session) (pos : Position)
    (f : String) (pu : Bool) (r d : PortRecord)
    (hf : (s.rowsAt pos).filter (matchesFilter f) = [r])
    (hd : env.directory.filter (fun x => x.port_id == r.port_id) = [d]) :
    (set_endpoint env s pos none (some f) pu).session
      = (set_endpoint env s pos (some r.port_id) none pu).session ∧
    (set_endpoint env s pos none (some f) pu).resp
      = (set_endpoint env s pos (some r.port_id) none pu).resp := by
  have hmem : d ∈ env.directory.filter (fun x => x.port_id == r.port_id) := by
    rw [hd]
    exact List.mem_singleton_self d
  have hdp : d.port_id = r.port_id := by
    have h2 := (List.mem_filter.mp hmem).2
    exact eq_of_beq (by simpa using h2)
  have e1 : set_endpoint env s pos none (some f) pu
      = resolveVlanAndStore env s pos r.port_id pu [] := by
    simp only [set_endpoint, hf]
  have e2 : set_endpoint env s pos (some r.port_id) none pu
      = resolveVlanAndStore env s pos d.port_id pu [ExtCall.portDirQuery] := by
    simp only [set_endpoint, hd]
  rw [e1, e2, hdp]
  exact ⟨resolveVlanAndStore_session env s pos r.port_id pu [] [ExtCall.portDirQuery],
         resolveVlanAndStore_resp env s s pos pos r.port_id pu [] [ExtCall.portDirQuery]⟩

/-- Witness for C5: the README filter `SW17:7` matches only the first demo
port, and selecting by filter equals selecting by that port's id. -/
theorem filter_port_id_equivalence_witness :
    (set_endpoint envDemo sessionCached Position.first none (some "SW17:7") false).session
      = (set_endpoint envDemo sessionCached Position.first
          (some portMia7.port_id) none false).session := by
  have h := filter_port_id_equivalence envDemo sessionCached Position.first "SW17:7"
      false portMia7 portMia7 (by decide) (by decide)
  exact h.1

/-- C8: after every public operation each endpoint position is either
entirely unset or fully resolved - no partially populated slot is ever
retained. -/
theorem session_invariant_preserved (env : Env) (s : Session) (pos : Position)
    (pid mf : Option String) (pu : Bool) (search : Option String) (lim : Option Nat)
    (nm contact : String)
    (h : s.wellFormed = true) :
    ((begin_selection s).session).wellFormed = true ∧
    ((list_available_ports env s search lim).session).wellFormed = true ∧
    ((list_endpoints_for_position env s pos search lim).session).wellFormed = true ∧
    ((set_endpoint env s pos pid mf pu).session).wellFormed = true ∧
    ((preview_payload s nm contact).session).wellFormed = true ∧
    ((create_from_selection env s nm contact).session).wellFormed = true := by
  refine ⟨rfl, h, ?_, ?_, ?_, ?_⟩
  · simp only [list_endpoints_for_position]
    rw [Session.wellFormed_setRows]
    exact h
  · rcases set_endpoint_session_shape env s pos pid mf pu with h2 | ⟨p, v, h2⟩
    · rw [h2]
      exact h
    · rw [h2]
      exact Session.wellFormed_setSlot s pos ⟨some p, some v⟩ rfl h
  · rw [preview_session_unchanged]
    exact h
  · rw [create_session_unchanged]
    exact h

/-- Witness for C8: the invariant holds concretely after a successful
`set_endpoint` on the initially empty session. -/
theorem session_invariant_preserved_witness :
    Session.empty.wellFormed = true ∧
    ((set_endpoint envDemo Session.empty Position.first
        (some "urn:sdx:port:amlight.net:MIA-MI1-SW17:7") none false).session).wellFormed
      = true := by
  have h := session_invariant_preserved envDemo Session.empty Position.first
      (some "urn:sdx:port:amlight.net:MIA-MI1-SW17:7") none false none none
      "test" "a@b.edu" (by decide)
  exact ⟨by decide, h.2.2.2.1⟩

/-- C9: every public operation returns the uniform Response Envelope, and
whenever the Transport collaborator honours the envelope contract so does
every operation - on a non-2xx status exactly one of `data` and `error` is
populated, and both are absent only on a successful no-content outcome. -/
theorem envelope_contract (env : Env) (s : Session) (pos : Position)
    (pid mf : Option String) (pu : Bool) (search : Option String) (lim : Option Nat)
    (nm contact : String)
    (htr : ∀ body, (env.transport body).wellFormed = true) :
    ((begin_selection s).resp).wellFormed = true ∧
    ((list_available_ports env s search lim).resp).wellFormed = true ∧
    ((list_endpoints_for_position env s pos search lim).resp).wellFormed = true ∧
    ((set_endpoint env s pos pid mf pu).resp).wellFormed = true ∧
    ((preview_payload s nm contact).resp).wellFormed = true ∧
    ((create_from_selection env s nm contact).resp).wellFormed = true := by
  refine ⟨okResp_wellFormed none, okResp_wellFormed _, okResp_wellFormed _, ?_, ?_, ?_⟩
  · cases pid with
    | none =>
      cases mf with
      | none => exact errResp_wellFormed ErrKind.InvalidSelection
      | some f =>
        rcases set_endpoint_by_filter env s pos f pu with ⟨h1, h2⟩ | ⟨r, h1, h2⟩ | ⟨h1, h2⟩ <;>
          rw [h2]
        · exact errResp_wellFormed _
        · rcases resolveVlanAndStore_resp_cases env s pos r.port_id pu [] with hc | hc <;>
            rw [hc]
          · exact okResp_wellFormed _
          · exact errResp_wellFormed _
        · exact errResp_wellFormed _
    | some p =>
      cases mf with
      | none =>
        rcases set_endpoint_by_port env s pos p pu with ⟨r, h1, h2⟩ | ⟨h1, h2⟩ <;> rw [h2]
        · rcases resolveVlanAndStore_resp_cases env s pos r.port_id pu
              [ExtCall.portDirQuery] with hc | hc <;> rw [hc]
          · exact okResp_wellFormed _
          · exact errResp_wellFormed _
        · exact errResp_wellFormed _
      | some f => exact errResp_wellFormed ErrKind.InvalidSelection
  · cases hp : s.assembledPayload nm contact <;> simp only [preview_payload, hp]
    · exact errResp_wellFormed _
    · exact okResp_wellFormed _
  · cases hp : s.assembledPayload nm contact <;> simp only [create_from_selection, hp]
    · exact errResp_wellFormed _
    · exact htr _

/-- Witness for C9: the envelope contract holds concretely in the demo
environment for a `set_endpoint` failure and a successful create. -/
theorem envelope_contract_witness :
    ((set_endpoint envDemo Session.empty Position.first none none false).resp).wellFormed
      = true ∧
    ((create_from_selection envDemo sessionResolved "test" "a@b.edu").resp).wellFormed
      = true := by
  have h := envelope_contract envDemo Session.empty Position.first none none false
      none none "test" "a@b.edu" (fun _ => rfl)
  have h2 := envelope_contract envDemo sessionResolved Position.first none none false
      none none "test" "a@b.edu" (fun _ => rfl)
  exact ⟨h.2.2.2.1, h2.2.2.2.2.2⟩

/-- C10: an endpoint-listing call returns an HTML table for display while
caching the JSON rows in the session, and a filter-based `set_endpoint`
matches `min_filter` against exactly those cached rows - two sessions with
the same cached rows at the position produce the same outcome. -/
theorem min_filter_uses_cached_rows (env : Env) (s s2 : Session) (pos : Position)
    (search : Option String) (lim : Option Nat) (f : String) (pu : Bool)
    (hrows : s.rowsAt pos = s2.rowsAt pos) :
    (((list_endpoints_for_position env s pos search lim).session).rowsAt pos
       = applyLimit (applySearch env.directory search) lim) ∧
    (∃ text, ((list_endpoints_for_position env s pos search lim).resp).data
       = some (RespData.html text)) ∧
    ((set_endpoint env s pos none (some f) pu).resp
       = (set_endpoint env s2 pos none (some f) pu).resp) := by
  refine ⟨Session.rowsAt_setRows s pos _, ⟨_, rfl⟩, ?_⟩
  rcases set_endpoint_by_filter env s pos f pu with ⟨h1, h2⟩ | ⟨r, h1, h2⟩ | ⟨h1, h2⟩ <;>
    rcases set_endpoint_by_filter env s2 pos f pu with ⟨g1, g2⟩ | ⟨r2, g1, g2⟩ | ⟨g1, g2⟩ <;>
    rw [h2, g2] <;> rw [← hrows] at g1 <;>
    first
    | (rw [h1] at g1
       cases g1
       exact resolveVlanAndStore_resp env s s2 pos pos _ pu [] [])
    | (rw [h1] at g1
       simp at g1)
    | (rw [g1] at h1
       simp at h1)

/-- Witness for C10: two sessions sharing the cached candidate rows yield
the same filter-selection outcome, and a listing call caches the filtered
rows. -/
theorem min_filter_uses_cached_rows_witness :
    (((list_endpoints_for_position envDemo sessionCached Position.first none
        none).session).rowsAt Position.first
      = applyLimit (applySearch envDemo.directory none) none) ∧
    ((set_endpoint envDemo sessionCached Position.first none (some "SW17:7") false).resp
      = (set_endpoint envDemo sessionCachedOther Position.first none
          (some "SW17:7") false).resp) := by
  have h := min_filter_uses_cached_rows envDemo sessionCached sessionCachedOther
      Position.first none none "SW17:7" false (by decide)
  exact ⟨h.1, h.2.2⟩

end SdxClient
